import Mathlib

/-
  Verification of the scroll-state, window-state-diff and GPU-context
  negotiation logic of src/azul/src/window.rs.

  Modelling conventions:
  * `f32` scroll offsets, overflow bounds and deltas are modelled as `ℚ`.
    Every concrete value appearing in the claims is exactly representable
    in `f32`, and the clamping expression `overflow.min(amt + d).max(0.0)`
    translates literally to `max (min overflow (amt + d)) 0`.
  * `FastHashMap<ExternalScrollId, ScrollState>` is modelled as an
    association list with the external scroll id modelled as `Nat`
    (the map is used purely as a finite key-value store; the spec states
    iteration order is irrelevant).
  * Mutating methods become functions returning the updated value
    (together with the read result where the source returns one).
-/

namespace Azul

/-- External scroll identifier (opaque key of the scroll table). -/
abbrev ExternalScrollId := Nat

/-- Embedding of `ScrollState` (window.rs lines 716-725). -/
structure ScrollState where
  scroll_amount_x : ℚ
  scroll_amount_y : ℚ
  overflow_x : ℚ
  overflow_y : ℚ
  used_this_frame : Bool
  deriving DecidableEq, Repr

/-- Embedding of `ScrollState::new` (window.rs lines 728-736): zero offsets,
the supplied overflow bounds, and the used flag set. -/
def ScrollState.new (overflow_x overflow_y : ℚ) : ScrollState :=
  { scroll_amount_x := 0
    scroll_amount_y := 0
    overflow_x := overflow_x
    overflow_y := overflow_y
    used_this_frame := true }

/-- Embedding of `ScrollState::get` (window.rs lines 738-741): sets
`used_this_frame` and returns the current offsets. The mutated state is
returned as the second component. -/
def ScrollState.get (s : ScrollState) : (ℚ × ℚ) × ScrollState :=
  ((s.scroll_amount_x, s.scroll_amount_y), { s with used_this_frame := true })

/-- Embedding of `ScrollState::add` (window.rs lines 743-746):
`self.scroll_amount_x = self.overflow_x.min(self.scroll_amount_x + x).max(0.0)`
and likewise for y. -/
def ScrollState.add (s : ScrollState) (x y : ℚ) : ScrollState :=
  { s with
    scroll_amount_x := max (min s.overflow_x (s.scroll_amount_x + x)) 0
    scroll_amount_y := max (min s.overflow_y (s.scroll_amount_y + y)) 0 }

/-- Lookup of a key in the scroll table (models `FastHashMap::get_mut` /
presence of the key). -/
def lookupEntry (l : List (ExternalScrollId × ScrollState)) (scroll_id : ExternalScrollId) :
    Option ScrollState :=
  match l with
  | [] => none
  | e :: rest => if e.1 = scroll_id then some e.2 else lookupEntry rest scroll_id

/-- Replacement of the value stored under a key (models in-place mutation of
the entry returned by `FastHashMap::get_mut`). -/
def updateEntry (l : List (ExternalScrollId × ScrollState)) (scroll_id : ExternalScrollId)
    (st : ScrollState) : List (ExternalScrollId × ScrollState) :=
  match l with
  | [] => []
  | e :: rest => if e.1 = scroll_id then (scroll_id, st) :: rest else e :: updateEntry rest scroll_id st

/-- Embedding of `ScrollStates` (window.rs line 684), a newtype around the
hash map from scroll ids to scroll states. -/
structure ScrollStates where
  table : List (ExternalScrollId × ScrollState)
  deriving DecidableEq, Repr

/-- Embedding of `ScrollStates::new` (window.rs lines 687-689). -/
def ScrollStates.new : ScrollStates := ⟨[]⟩

/-- Embedding of `ScrollStates::get_scroll_amount` (window.rs lines 692-696):
looks up the entry, returns `None` when absent, otherwise calls
`ScrollState::get` on the entry (which marks it used) and returns the
offsets. The updated table is the second component. -/
def ScrollStates.get_scroll_amount (m : ScrollStates) (scroll_id : ExternalScrollId) :
    Option (ℚ × ℚ) × ScrollStates :=
  match lookupEntry m.table scroll_id with
  | none => (none, m)
  | some entry => (some entry.get.1, ⟨updateEntry m.table scroll_id entry.get.2⟩)

/-- Embedding of `ScrollStates::scroll_node` (window.rs lines 700-704):
if the entry exists, `ScrollState::add` is applied to it; otherwise the
call does nothing. -/
def ScrollStates.scroll_node (m : ScrollStates) (scroll_id : ExternalScrollId)
    (scroll_by_x scroll_by_y : ℚ) : ScrollStates :=
  match lookupEntry m.table scroll_id with
  | none => m
  | some entry => ⟨updateEntry m.table scroll_id (entry.add scroll_by_x scroll_by_y)⟩

/-- Embedding of `ScrollStates::ensure_initialized_scroll_state`
(window.rs lines 706-708): `self.0.entry(scroll_id).or_insert_with(...)` —
inserts a fresh `ScrollState::new` only when the key is absent. -/
def ScrollStates.ensure_initialized_scroll_state (m : ScrollStates)
    (scroll_id : ExternalScrollId) (overflow_x overflow_y : ℚ) : ScrollStates :=
  match lookupEntry m.table scroll_id with
  | none => ⟨m.table ++ [(scroll_id, ScrollState.new overflow_x overflow_y)]⟩
  | some _ => m

/-- Embedding of `ScrollStates::remove_unused_scroll_states`
(window.rs lines 711-713): `self.0.retain(|_, state| state.used_this_frame)`. -/
def ScrollStates.remove_unused_scroll_states (m : ScrollStates) : ScrollStates :=
  ⟨m.table.filter (fun e => e.2.used_this_frame)⟩

/-- One call into the `ScrollStates` API; used to reason about arbitrary
sequences of operations on the scroll table. -/
inductive ScrollOp where
  | ensureInit (scroll_id : ExternalScrollId) (overflow_x overflow_y : ℚ)
  | getAmount (scroll_id : ExternalScrollId)
  | scrollNode (scroll_id : ExternalScrollId) (dx dy : ℚ)
  | removeUnused
  deriving DecidableEq

/-- Apply one `ScrollStates` API call to the table (read results of
`get_scroll_amount` are discarded; only the state effect is kept). -/
def ScrollStates.applyOp (m : ScrollStates) : ScrollOp → ScrollStates
  | ScrollOp.ensureInit i ox oy => m.ensure_initialized_scroll_state i ox oy
  | ScrollOp.getAmount i => (m.get_scroll_amount i).2
  | ScrollOp.scrollNode i dx dy => m.scroll_node i dx dy
  | ScrollOp.removeUnused => m.remove_unused_scroll_states

/-- Apply a sequence of `ScrollStates` API calls, left to right. -/
def ScrollStates.applyOps (m : ScrollStates) (ops : List ScrollOp) : ScrollStates :=
  ops.foldl ScrollStates.applyOp m

/-- Every entry of the table carries `used_this_frame = true`. -/
def ScrollStates.allUsed (m : ScrollStates) : Bool :=
  m.table.all (fun e => e.2.used_this_frame)

/-- Fold a sequence of `ScrollState::add` calls (one per delta pair) over a
scroll state; models repeated `scroll_node` calls hitting the same entry. -/
def ScrollState.applyScrolls (s : ScrollState) (deltas : List (ℚ × ℚ)) : ScrollState :=
  deltas.foldl (fun t d => t.add d.1 d.2) s

/-- The offsets lie within `[0, overflow]` on both axes. -/
def ScrollState.inBounds (s : ScrollState) : Prop :=
  0 ≤ s.scroll_amount_x ∧ s.scroll_amount_x ≤ s.overflow_x ∧
  0 ≤ s.scroll_amount_y ∧ s.scroll_amount_y ≤ s.overflow_y

instance (s : ScrollState) : Decidable s.inBounds := by
  unfold ScrollState.inBounds
  infer_instance

theorem ScrollState.add_inBounds (s : ScrollState) (x y : ℚ)
    (hx : 0 ≤ s.overflow_x) (hy : 0 ≤ s.overflow_y) : (s.add x y).inBounds :=
  ⟨le_max_right _ _, max_le (min_le_left _ _) hx,
   le_max_right _ _, max_le (min_le_left _ _) hy⟩

theorem ScrollState.applyScrolls_overflow (deltas : List (ℚ × ℚ)) (s : ScrollState) :
    (s.applyScrolls deltas).overflow_x = s.overflow_x ∧
    (s.applyScrolls deltas).overflow_y = s.overflow_y := by
  induction deltas generalizing s with
  | nil => exact ⟨rfl, rfl⟩
  | cons d rest ih => exact ih (s.add d.1 d.2)

theorem ScrollState.applyScrolls_inBounds (deltas : List (ℚ × ℚ)) (s : ScrollState)
    (hx : 0 ≤ s.overflow_x) (hy : 0 ≤ s.overflow_y) (h : s.inBounds) :
    (s.applyScrolls deltas).inBounds := by
  induction deltas generalizing s with
  | nil => exact h
  | cons d rest ih => exact ih (s.add d.1 d.2) hx hy (s.add_inBounds d.1 d.2 hx hy)

theorem lookupEntry_append (l : List (ExternalScrollId × ScrollState))
    (i : ExternalScrollId) (st : ScrollState) (j : ExternalScrollId) :
    lookupEntry (l ++ [(i, st)]) j =
      (match lookupEntry l j with
       | some v => some v
       | none => if i = j then some st else none) := by
  induction l with
  | nil => simp [lookupEntry]
  | cons e rest ih =>
    by_cases he : e.1 = j
    · simp [lookupEntry, he]
    · simp [lookupEntry, he, ih]

theorem lookupEntry_used (l : List (ExternalScrollId × ScrollState))
    (i : ExternalScrollId) (st : ScrollState)
    (hall : l.all (fun e => e.2.used_this_frame) = true)
    (hfind : lookupEntry l i = some st) : st.used_this_frame = true := by
  induction l with
  | nil => simp [lookupEntry] at hfind
  | cons e rest ih =>
    simp only [List.all_cons, Bool.and_eq_true] at hall
    by_cases he : e.1 = i
    · simp only [lookupEntry, he, if_pos, Option.some.injEq] at hfind
      exact hfind ▸ hall.1
    · exact ih hall.2 (by simpa [lookupEntry, he] using hfind)

theorem updateEntry_all (p : ExternalScrollId × ScrollState → Bool)
    (l : List (ExternalScrollId × ScrollState)) (i : ExternalScrollId) (st : ScrollState)
    (hall : l.all p = true) (hst : p (i, st) = true) : (updateEntry l i st).all p = true := by
  induction l with
  | nil => simp [updateEntry]
  | cons e rest ih =>
    simp only [List.all_cons, Bool.and_eq_true] at hall
    by_cases he : e.1 = i
    · simp [updateEntry, he, List.all_cons, hst, hall.2]
    · simp [updateEntry, he, List.all_cons, hall.1, ih hall.2]

theorem remove_unused_of_allUsed (m : ScrollStates) (h : m.allUsed = true) :
    m.remove_unused_scroll_states = m := by
  cases m with
  | mk table =>
    simp only [ScrollStates.allUsed] at h
    simp only [ScrollStates.remove_unused_scroll_states]
    congr 1
    exact List.filter_eq_self.2 (by simpa using List.all_eq_true.1 h)

theorem allUsed_ensure (m : ScrollStates) (i : ExternalScrollId) (ox oy : ℚ)
    (h : m.allUsed = true) : (m.ensure_initialized_scroll_state i ox oy).allUsed = true := by
  unfold ScrollStates.ensure_initialized_scroll_state
  split
  · simpa [ScrollStates.allUsed, List.all_append, ScrollState.new] using h
  · exact h

theorem allUsed_get (m : ScrollStates) (i : ExternalScrollId)
    (h : m.allUsed = true) : (m.get_scroll_amount i).2.allUsed = true := by
  unfold ScrollStates.get_scroll_amount
  split
  · exact h
  · rename_i entry heq
    exact updateEntry_all _ m.table i entry.get.2 h rfl

theorem allUsed_scroll (m : ScrollStates) (i : ExternalScrollId) (dx dy : ℚ)
    (h : m.allUsed = true) : (m.scroll_node i dx dy).allUsed = true := by
  unfold ScrollStates.scroll_node
  split
  · exact h
  · rename_i entry heq
    exact updateEntry_all _ m.table i (entry.add dx dy) h (lookupEntry_used m.table i entry h heq)

theorem allUsed_applyOp (m : ScrollStates) (op : ScrollOp) (h : m.allUsed = true) :
    (m.applyOp op).allUsed = true := by
  cases op with
  | ensureInit i ox oy =>
    simp only [ScrollStates.applyOp]
    exact allUsed_ensure m i ox oy h
  | getAmount i =>
    simp only [ScrollStates.applyOp]
    exact allUsed_get m i h
  | scrollNode i dx dy =>
    simp only [ScrollStates.applyOp]
    exact allUsed_scroll m i dx dy h
  | removeUnused =>
    simp only [ScrollStates.applyOp]
    rw [remove_unused_of_allUsed m h]
    exact h

theorem allUsed_applyOps (ops : List ScrollOp) (m : ScrollStates) (h : m.allUsed = true) :
    (m.applyOps ops).allUsed = true := by
  induction ops generalizing m with
  | nil => exact h
  | cons op rest ih => exact ih (m.applyOp op) (allUsed_applyOp m op h)

/-- Claim C2: starting from `ScrollState::new` with nonnegative overflow
bounds, any finite sequence of scroll deltas (each applied through
`ScrollState::add`, the clamping step of `scroll_node`) leaves the offset on
each axis within `[0, overflow]`, the overflow bounds themselves being
unchanged. Quantifying over all delta sequences covers the state after every
intermediate call (every prefix is itself such a sequence). -/
theorem scroll_offsets_stay_in_bounds (overflow_x overflow_y : ℚ)
    (hx : 0 ≤ overflow_x) (hy : 0 ≤ overflow_y) (deltas : List (ℚ × ℚ)) :
    ((ScrollState.new overflow_x overflow_y).applyScrolls deltas).inBounds ∧
    ((ScrollState.new overflow_x overflow_y).applyScrolls deltas).overflow_x = overflow_x ∧
    ((ScrollState.new overflow_x overflow_y).applyScrolls deltas).overflow_y = overflow_y := by
  refine ⟨?_, (ScrollState.applyScrolls_overflow deltas _).1, (ScrollState.applyScrolls_overflow deltas _).2⟩
  exact ScrollState.applyScrolls_inBounds deltas (ScrollState.new overflow_x overflow_y)
    hx hy ⟨le_refl 0, hx, le_refl 0, hy⟩

/-- Witness for C2 at overflow bounds `(100, 50)` and the delta sequence
`[(30, 80), (-500, 7)]`. -/
theorem scroll_offsets_stay_in_bounds_witness :
    (0:ℚ) ≤ 100 ∧ (0:ℚ) ≤ 50 ∧
    (((ScrollState.new 100 50).applyScrolls [(30, 80), (-500, 7)]).inBounds ∧
     ((ScrollState.new 100 50).applyScrolls [(30, 80), (-500, 7)]).overflow_x = 100 ∧
     ((ScrollState.new 100 50).applyScrolls [(30, 80), (-500, 7)]).overflow_y = 50) :=
  ⟨by norm_num, by norm_num,
   scroll_offsets_stay_in_bounds 100 50 (by norm_num) (by norm_num) [(30, 80), (-500, 7)]⟩

/-- Claim C6: on an empty table, `ensure_initialized_scroll_state(1, 100, 50)`,
then `scroll_node(1, 30, 80)`, then `get_scroll_amount(1)` returns
`Some((30, 50))`, the y offset clamped to the overflow bound. -/
theorem scenario_scroll_clamps_to_overflow :
    (((ScrollStates.new.ensure_initialized_scroll_state 1 100 50).scroll_node 1 30 80).get_scroll_amount 1).1
      = some (30, 50) := by
  simp only [ScrollStates.new, ScrollStates.ensure_initialized_scroll_state,
    ScrollStates.scroll_node, ScrollStates.get_scroll_amount, ScrollState.new,
    ScrollState.add, ScrollState.get, lookupEntry, updateEntry]
  norm_num [min_def, max_def]

/-- Claim C7: for an id absent from the table, `scroll_node` is a no-op
(creates no entry, table unchanged) and `get_scroll_amount` returns `None`
with the table unchanged. The embedding is total, so neither call can panic. -/
theorem scroll_unknown_id_is_noop (m : ScrollStates) (scroll_id : ExternalScrollId) (dx dy : ℚ)
    (h : lookupEntry m.table scroll_id = none) :
    m.scroll_node scroll_id dx dy = m ∧
    (m.get_scroll_amount scroll_id).1 = none ∧
    (m.get_scroll_amount scroll_id).2 = m := by
  unfold ScrollStates.scroll_node ScrollStates.get_scroll_amount
  rw [h]
  exact ⟨rfl, rfl, rfl⟩

/-- Witness for C7: id 99 on the empty table. -/
theorem scroll_unknown_id_is_noop_witness :
    lookupEntry ScrollStates.new.table 99 = none ∧
    (ScrollStates.new.scroll_node 99 10 10 = ScrollStates.new ∧
     (ScrollStates.new.get_scroll_amount 99).1 = none ∧
     (ScrollStates.new.get_scroll_amount 99).2 = ScrollStates.new) :=
  ⟨rfl, scroll_unknown_id_is_noop ScrollStates.new 99 10 10 rfl⟩

/-- Claim C8: `ensure_initialized_scroll_state` leaves an existing entry
completely unchanged (offsets and overflow bounds, even if the supplied
bounds differ from the stored ones), and for an absent id inserts a fresh
entry with zero offsets and the supplied overflow bounds, leaving every
other key unchanged. -/
theorem ensure_initialized_preserves_or_inserts (m : ScrollStates)
    (scroll_id : ExternalScrollId) (overflow_x overflow_y : ℚ) :
    (∀ st, lookupEntry m.table scroll_id = some st →
      m.ensure_initialized_scroll_state scroll_id overflow_x overflow_y = m) ∧
    (lookupEntry m.table scroll_id = none →
      lookupEntry (m.ensure_initialized_scroll_state scroll_id overflow_x overflow_y).table scroll_id
          = some { scroll_amount_x := 0, scroll_amount_y := 0, overflow_x := overflow_x,
                   overflow_y := overflow_y, used_this_frame := true } ∧
      ∀ j, j ≠ scroll_id →
        lookupEntry (m.ensure_initialized_scroll_state scroll_id overflow_x overflow_y).table j
          = lookupEntry m.table j) := by
  constructor
  · intro st h
    unfold ScrollStates.ensure_initialized_scroll_state
    rw [h]
  · intro h
    unfold ScrollStates.ensure_initialized_scroll_state
    rw [h]
    constructor
    · rw [lookupEntry_append, h]
      simp [ScrollState.new]
    · intro j hj
      rw [lookupEntry_append]
      cases hl : lookupEntry m.table j with
      | none => simp [Ne.symm hj]
      | some v => rfl

/-- Witness for C8: re-initializing id 1 with different bounds is the
identity, and initializing absent id 2 inserts the fresh entry. -/
theorem ensure_initialized_preserves_or_inserts_witness :
    ((ScrollStates.new.ensure_initialized_scroll_state 1 100 50).ensure_initialized_scroll_state 1 7 8
      = ScrollStates.new.ensure_initialized_scroll_state 1 100 50) ∧
    lookupEntry (ScrollStates.new.ensure_initialized_scroll_state 2 3 4).table 2
      = some { scroll_amount_x := 0, scroll_amount_y := 0, overflow_x := 3,
               overflow_y := 4, used_this_frame := true } :=
  ⟨(ensure_initialized_preserves_or_inserts
      (ScrollStates.new.ensure_initialized_scroll_state 1 100 50) 1 7 8).1
      (ScrollState.new 100 50) rfl,
   ((ensure_initialized_preserves_or_inserts ScrollStates.new 2 3 4).2 rfl).1⟩

/-- Scroll table built by: frame 0 initializes scroll ids 1 and 2 and ends
with `remove_unused_scroll_states`; frame 1 touches only id 1 (via
`get_scroll_amount`), so the frame touched exactly the id set `S = {1}`. -/
def c1FrameTable : ScrollStates :=
  ScrollStates.applyOps ScrollStates.new
    [ScrollOp.ensureInit 1 100 100, ScrollOp.ensureInit 2 100 100,
     ScrollOp.removeUnused, ScrollOp.getAmount 1]

/-- Claim C1 (counterexample): after a frame that touched exactly `S = {1}`,
`remove_unused_scroll_states` does NOT remove the entry for id 2 (which is
not in `S`) — the entry survives because `used_this_frame` is never reset to
`false` by any operation. The claim predicts the lookup returns `none`. -/
theorem remove_unused_keeps_untouched_entry :
    lookupEntry c1FrameTable.remove_unused_scroll_states.table 2
      = some (ScrollState.new 100 100) := by decide

/-- Claim C1 (amended): after any sequence of scroll-table operations
starting from the empty table, `remove_unused_scroll_states` removes
nothing at all: every entry — touched this frame or not — is retained with
its offsets unchanged, because entries are created with
`used_this_frame = true` and no operation ever resets the flag to `false`. -/
theorem remove_unused_after_frame_removes_nothing (ops : List ScrollOp) :
    (ScrollStates.new.applyOps ops).remove_unused_scroll_states
      = ScrollStates.new.applyOps ops :=
  remove_unused_of_allUsed _ (allUsed_applyOps ops ScrollStates.new rfl)

/-- Claim C10: after any sequence of `ScrollStates` operations starting from
the empty table, every entry has `used_this_frame = true` (entries are
created with the flag set, `get_scroll_amount` sets it, and no operation
clears it), and consequently `remove_unused_scroll_states` leaves the table
unchanged. -/
theorem scroll_table_always_marked_used (ops : List ScrollOp) :
    (ScrollStates.new.applyOps ops).allUsed = true ∧
    (ScrollStates.new.applyOps ops).remove_unused_scroll_states
      = ScrollStates.new.applyOps ops :=
  have h := allUsed_applyOps ops ScrollStates.new rfl
  ⟨h, remove_unused_of_allUsed _ h⟩

/-- Modelled from the spec: `MouseState` lives in `window_state.rs`, which is
not among the provided sources. The tracked field `mouse_cursor_type` (an
opaque cursor-kind code) comes from the accesses in
`Window::update_from_user_window_state`; `position`, `scroll_x`, `scroll_y`
are the untracked read-only telemetry named by spec section 4.2 and by the
accesses in `Window::clear_scroll_state`. -/
structure MouseState where
  mouse_cursor_type : Nat
  position : ℚ × ℚ
  scroll_x : ℚ
  scroll_y : ℚ
  deriving DecidableEq, Repr

/-- Modelled from the spec: `WindowSize` lives in `window_state.rs`. The
tracked fields `min_dimensions` and `max_dimensions` come from
`Window::update_from_user_window_state`; `dimensions`, `hidpi_factor` and
`winit_hidpi_factor` are the untracked fields accessed by
`Window::update_from_external_window_state`. -/
structure WindowSize where
  dimensions : ℚ × ℚ
  hidpi_factor : ℚ
  winit_hidpi_factor : ℚ
  min_dimensions : Option (ℚ × ℚ)
  max_dimensions : Option (ℚ × ℚ)
  deriving DecidableEq, Repr

/-- Modelled from the spec: `WindowState` lives in `window_state.rs`. Fields
are those named by spec section 3 and accessed field-by-field in
`Window::update_from_user_window_state` (window.rs lines 940-995). -/
structure WindowState where
  title : String
  mouse_state : MouseState
  is_maximized : Bool
  is_fullscreen : Bool
  has_decorations : Bool
  is_visible : Bool
  size : WindowSize
  deriving DecidableEq, Repr

/-- One platform-window mutator invocation performed by the diff engine.
`set_fullscreen` carries `some ()` for `set_fullscreen(Some(current_monitor))`
(the monitor handle is opaque) and `none` for `set_fullscreen(None)`. -/
inductive PlatformCall where
  | set_title (title : String)
  | set_cursor (cursor : Nat)
  | set_maximized (b : Bool)
  | set_fullscreen (monitor : Option Unit)
  | set_decorations (b : Bool)
  | show_window
  | hide_window
  | set_min_dimensions (d : Option (ℚ × ℚ))
  | set_max_dimensions (d : Option (ℚ × ℚ))
  deriving DecidableEq, Repr

/-- Title block of `update_from_user_window_state` (window.rs lines 948-951):
compare, call the mutator, copy the new value into the stored state. Each of
the eight `diff*` functions below is one `if` block of the source, applied in
source order to the accumulating (state, emitted calls) pair. -/
def diffTitle (n : WindowState) (p : WindowState × List PlatformCall) :
    WindowState × List PlatformCall :=
  if p.1.title ≠ n.title then
    ({ p.1 with title := n.title }, p.2 ++ [PlatformCall.set_title n.title])
  else p

/-- Cursor block (window.rs lines 953-956). -/
def diffCursor (n : WindowState) (p : WindowState × List PlatformCall) :
    WindowState × List PlatformCall :=
  if p.1.mouse_state.mouse_cursor_type ≠ n.mouse_state.mouse_cursor_type then
    ({ p.1 with mouse_state := { p.1.mouse_state with mouse_cursor_type := n.mouse_state.mouse_cursor_type } },
     p.2 ++ [PlatformCall.set_cursor n.mouse_state.mouse_cursor_type])
  else p

/-- Maximized block (window.rs lines 958-961). -/
def diffMaximized (n : WindowState) (p : WindowState × List PlatformCall) :
    WindowState × List PlatformCall :=
  if p.1.is_maximized ≠ n.is_maximized then
    ({ p.1 with is_maximized := n.is_maximized }, p.2 ++ [PlatformCall.set_maximized n.is_maximized])
  else p

/-- Fullscreen block (window.rs lines 963-970): fullscreen on passes the
current monitor, fullscreen off passes `None`. -/
def diffFullscreen (n : WindowState) (p : WindowState × List PlatformCall) :
    WindowState × List PlatformCall :=
  if p.1.is_fullscreen ≠ n.is_fullscreen then
    ({ p.1 with is_fullscreen := n.is_fullscreen },
     p.2 ++ [PlatformCall.set_fullscreen (if n.is_fullscreen then some () else none)])
  else p

/-- Decorations block (window.rs lines 972-975). -/
def diffDecorations (n : WindowState) (p : WindowState × List PlatformCall) :
    WindowState × List PlatformCall :=
  if p.1.has_decorations ≠ n.has_decorations then
    ({ p.1 with has_decorations := n.has_decorations }, p.2 ++ [PlatformCall.set_decorations n.has_decorations])
  else p

/-- Visibility block (window.rs lines 977-984): `show()` or `hide()`. -/
def diffVisible (n : WindowState) (p : WindowState × List PlatformCall) :
    WindowState × List PlatformCall :=
  if p.1.is_visible ≠ n.is_visible then
    ({ p.1 with is_visible := n.is_visible },
     p.2 ++ [if n.is_visible then PlatformCall.show_window else PlatformCall.hide_window])
  else p

/-- Minimum-dimensions block (window.rs lines 986-989); the
`and_then(|dim| Some(dim.into()))` unit conversion is the identity here. -/
def diffMinDims (n : WindowState) (p : WindowState × List PlatformCall) :
    WindowState × List PlatformCall :=
  if p.1.size.min_dimensions ≠ n.size.min_dimensions then
    ({ p.1 with size := { p.1.size with min_dimensions := n.size.min_dimensions } },
     p.2 ++ [PlatformCall.set_min_dimensions n.size.min_dimensions])
  else p

/-- Maximum-dimensions block (window.rs lines 991-994). -/
def diffMaxDims (n : WindowState) (p : WindowState × List PlatformCall) :
    WindowState × List PlatformCall :=
  if p.1.size.max_dimensions ≠ n.size.max_dimensions then
    ({ p.1 with size := { p.1.size with max_dimensions := n.size.max_dimensions } },
     p.2 ++ [PlatformCall.set_max_dimensions n.size.max_dimensions])
  else p

/-- Embedding of `Window::update_from_user_window_state` (window.rs lines
940-995): the eight field blocks run in source order on the stored state,
each emitting at most one platform call; returns the resulting stored state
and the list of platform calls in emission order. -/
def update_from_user_window_state (old n : WindowState) : WindowState × List PlatformCall :=
  diffMaxDims n (diffMinDims n (diffVisible n (diffDecorations n
    (diffFullscreen n (diffMaximized n (diffCursor n (diffTitle n (old, []))))))))

/-- The two states agree on all eight fields tracked by the diff engine. -/
def trackedEq (a b : WindowState) : Prop :=
  a.title = b.title ∧
  a.mouse_state.mouse_cursor_type = b.mouse_state.mouse_cursor_type ∧
  a.is_maximized = b.is_maximized ∧
  a.is_fullscreen = b.is_fullscreen ∧
  a.has_decorations = b.has_decorations ∧
  a.is_visible = b.is_visible ∧
  a.size.min_dimensions = b.size.min_dimensions ∧
  a.size.max_dimensions = b.size.max_dimensions

theorem diffTitle_state (n : WindowState) (p : WindowState × List PlatformCall) :
    (diffTitle n p).1 = { p.1 with title := n.title } := by
  unfold diffTitle
  split
  · rfl
  · rename_i hc
    simp only [ne_eq, Decidable.not_not] at hc
    rw [← hc]

theorem diffCursor_state (n : WindowState) (p : WindowState × List PlatformCall) :
    (diffCursor n p).1 =
      { p.1 with mouse_state := { p.1.mouse_state with mouse_cursor_type := n.mouse_state.mouse_cursor_type } } := by
  unfold diffCursor
  split
  · rfl
  · rename_i hc
    simp only [ne_eq, Decidable.not_not] at hc
    rw [← hc]

theorem diffMaximized_state (n : WindowState) (p : WindowState × List PlatformCall) :
    (diffMaximized n p).1 = { p.1 with is_maximized := n.is_maximized } := by
  unfold diffMaximized
  split
  · rfl
  · rename_i hc
    simp only [ne_eq, Decidable.not_not] at hc
    rw [← hc]

theorem diffFullscreen_state (n : WindowState) (p : WindowState × List PlatformCall) :
    (diffFullscreen n p).1 = { p.1 with is_fullscreen := n.is_fullscreen } := by
  unfold diffFullscreen
  split
  · rfl
  · rename_i hc
    simp only [ne_eq, Decidable.not_not] at hc
    rw [← hc]

theorem diffDecorations_state (n : WindowState) (p : WindowState × List PlatformCall) :
    (diffDecorations n p).1 = { p.1 with has_decorations := n.has_decorations } := by
  unfold diffDecorations
  split
  · rfl
  · rename_i hc
    simp only [ne_eq, Decidable.not_not] at hc
    rw [← hc]

theorem diffVisible_state (n : WindowState) (p : WindowState × List PlatformCall) :
    (diffVisible n p).1 = { p.1 with is_visible := n.is_visible } := by
  unfold diffVisible
  split
  · rfl
  · rename_i hc
    simp only [ne_eq, Decidable.not_not] at hc
    rw [← hc]

theorem diffMinDims_state (n : WindowState) (p : WindowState × List PlatformCall) :
    (diffMinDims n p).1 =
      { p.1 with size := { p.1.size with min_dimensions := n.size.min_dimensions } } := by
  unfold diffMinDims
  split
  · rfl
  · rename_i hc
    simp only [ne_eq, Decidable.not_not] at hc
    rw [← hc]

theorem diffMaxDims_state (n : WindowState) (p : WindowState × List PlatformCall) :
    (diffMaxDims n p).1 =
      { p.1 with size := { p.1.size with max_dimensions := n.size.max_dimensions } } := by
  unfold diffMaxDims
  split
  · rfl
  · rename_i hc
    simp only [ne_eq, Decidable.not_not] at hc
    rw [← hc]

theorem diffTitle_calls (n : WindowState) (p : WindowState × List PlatformCall) :
    (diffTitle n p).2 =
      p.2 ++ (if p.1.title ≠ n.title then [PlatformCall.set_title n.title] else []) := by
  unfold diffTitle
  split
  · rfl
  · exact (List.append_nil _).symm

theorem diffCursor_calls (n : WindowState) (p : WindowState × List PlatformCall) :
    (diffCursor n p).2 =
      p.2 ++ (if p.1.mouse_state.mouse_cursor_type ≠ n.mouse_state.mouse_cursor_type then
        [PlatformCall.set_cursor n.mouse_state.mouse_cursor_type] else []) := by
  unfold diffCursor
  split
  · rfl
  · exact (List.append_nil _).symm

theorem diffMaximized_calls (n : WindowState) (p : WindowState × List PlatformCall) :
    (diffMaximized n p).2 =
      p.2 ++ (if p.1.is_maximized ≠ n.is_maximized then
        [PlatformCall.set_maximized n.is_maximized] else []) := by
  unfold diffMaximized
  split
  · rfl
  · exact (List.append_nil _).symm

theorem diffFullscreen_calls (n : WindowState) (p : WindowState × List PlatformCall) :
    (diffFullscreen n p).2 =
      p.2 ++ (if p.1.is_fullscreen ≠ n.is_fullscreen then
        [PlatformCall.set_fullscreen (if n.is_fullscreen then some () else none)] else []) := by
  unfold diffFullscreen
  split
  · rfl
  · exact (List.append_nil _).symm

theorem diffDecorations_calls (n : WindowState) (p : WindowState × List PlatformCall) :
    (diffDecorations n p).2 =
      p.2 ++ (if p.1.has_decorations ≠ n.has_decorations then
        [PlatformCall.set_decorations n.has_decorations] else []) := by
  unfold diffDecorations
  split
  · rfl
  · exact (List.append_nil _).symm

theorem diffVisible_calls (n : WindowState) (p : WindowState × List PlatformCall) :
    (diffVisible n p).2 =
      p.2 ++ (if p.1.is_visible ≠ n.is_visible then
        [if n.is_visible then PlatformCall.show_window else PlatformCall.hide_window] else []) := by
  unfold diffVisible
  split
  · rfl
  · exact (List.append_nil _).symm

theorem diffMinDims_calls (n : WindowState) (p : WindowState × List PlatformCall) :
    (diffMinDims n p).2 =
      p.2 ++ (if p.1.size.min_dimensions ≠ n.size.min_dimensions then
        [PlatformCall.set_min_dimensions n.size.min_dimensions] else []) := by
  unfold diffMinDims
  split
  · rfl
  · exact (List.append_nil _).symm

theorem diffMaxDims_calls (n : WindowState) (p : WindowState × List PlatformCall) :
    (diffMaxDims n p).2 =
      p.2 ++ (if p.1.size.max_dimensions ≠ n.size.max_dimensions then
        [PlatformCall.set_max_dimensions n.size.max_dimensions] else []) := by
  unfold diffMaxDims
  split
  · rfl
  · exact (List.append_nil _).symm

theorem update_state_eq (old n : WindowState) :
    (update_from_user_window_state old n).1 =
      { old with
        title := n.title,
        mouse_state := { old.mouse_state with mouse_cursor_type := n.mouse_state.mouse_cursor_type },
        is_maximized := n.is_maximized,
        is_fullscreen := n.is_fullscreen,
        has_decorations := n.has_decorations,
        is_visible := n.is_visible,
        size := { old.size with
          min_dimensions := n.size.min_dimensions,
          max_dimensions := n.size.max_dimensions } } := by
  unfold update_from_user_window_state
  rw [diffMaxDims_state, diffMinDims_state, diffVisible_state, diffDecorations_state,
      diffFullscreen_state, diffMaximized_state, diffCursor_state, diffTitle_state]

theorem update_calls_eq (old n : WindowState) :
    (update_from_user_window_state old n).2 =
      (if old.title ≠ n.title then [PlatformCall.set_title n.title] else []) ++
      (if old.mouse_state.mouse_cursor_type ≠ n.mouse_state.mouse_cursor_type then
        [PlatformCall.set_cursor n.mouse_state.mouse_cursor_type] else []) ++
      (if old.is_maximized ≠ n.is_maximized then [PlatformCall.set_maximized n.is_maximized] else []) ++
      (if old.is_fullscreen ≠ n.is_fullscreen then
        [PlatformCall.set_fullscreen (if n.is_fullscreen then some () else none)] else []) ++
      (if old.has_decorations ≠ n.has_decorations then
        [PlatformCall.set_decorations n.has_decorations] else []) ++
      (if old.is_visible ≠ n.is_visible then
        [if n.is_visible then PlatformCall.show_window else PlatformCall.hide_window] else []) ++
      (if old.size.min_dimensions ≠ n.size.min_dimensions then
        [PlatformCall.set_min_dimensions n.size.min_dimensions] else []) ++
      (if old.size.max_dimensions ≠ n.size.max_dimensions then
        [PlatformCall.set_max_dimensions n.size.max_dimensions] else []) := by
  unfold update_from_user_window_state
  rw [diffMaxDims_calls, diffMinDims_calls, diffVisible_calls, diffDecorations_calls,
      diffFullscreen_calls, diffMaximized_calls, diffCursor_calls, diffTitle_calls,
      diffMinDims_state, diffVisible_state, diffDecorations_state,
      diffFullscreen_state, diffMaximized_state, diffCursor_state, diffTitle_state]
  simp [List.append_assoc]

/-- Claim C4: if the old and new state agree on every tracked field, the diff
engine performs zero platform calls and leaves the stored state untouched;
if exactly one tracked field differs, it performs exactly the one mutator
call for that field and updates only that field of the stored state. -/
theorem diff_engine_minimal_calls (old n : WindowState) :
    (trackedEq old n → update_from_user_window_state old n = (old, [])) ∧
    (old.title ≠ n.title →
      old.mouse_state.mouse_cursor_type = n.mouse_state.mouse_cursor_type →
      old.is_maximized = n.is_maximized → old.is_fullscreen = n.is_fullscreen →
      old.has_decorations = n.has_decorations → old.is_visible = n.is_visible →
      old.size.min_dimensions = n.size.min_dimensions →
      old.size.max_dimensions = n.size.max_dimensions →
      update_from_user_window_state old n =
        ({ old with title := n.title }, [PlatformCall.set_title n.title])) ∧
    (old.title = n.title →
      old.mouse_state.mouse_cursor_type ≠ n.mouse_state.mouse_cursor_type →
      old.is_maximized = n.is_maximized → old.is_fullscreen = n.is_fullscreen →
      old.has_decorations = n.has_decorations → old.is_visible = n.is_visible →
      old.size.min_dimensions = n.size.min_dimensions →
      old.size.max_dimensions = n.size.max_dimensions →
      update_from_user_window_state old n =
        ({ old with mouse_state := { old.mouse_state with
            mouse_cursor_type := n.mouse_state.mouse_cursor_type } },
         [PlatformCall.set_cursor n.mouse_state.mouse_cursor_type])) ∧
    (old.title = n.title →
      old.mouse_state.mouse_cursor_type = n.mouse_state.mouse_cursor_type →
      old.is_maximized ≠ n.is_maximized → old.is_fullscreen = n.is_fullscreen →
      old.has_decorations = n.has_decorations → old.is_visible = n.is_visible →
      old.size.min_dimensions = n.size.min_dimensions →
      old.size.max_dimensions = n.size.max_dimensions →
      update_from_user_window_state old n =
        ({ old with is_maximized := n.is_maximized },
         [PlatformCall.set_maximized n.is_maximized])) ∧
    (old.title = n.title →
      old.mouse_state.mouse_cursor_type = n.mouse_state.mouse_cursor_type →
      old.is_maximized = n.is_maximized → old.is_fullscreen ≠ n.is_fullscreen →
      old.has_decorations = n.has_decorations → old.is_visible = n.is_visible →
      old.size.min_dimensions = n.size.min_dimensions →
      old.size.max_dimensions = n.size.max_dimensions →
      update_from_user_window_state old n =
        ({ old with is_fullscreen := n.is_fullscreen },
         [PlatformCall.set_fullscreen (if n.is_fullscreen then some () else none)])) ∧
    (old.title = n.title →
      old.mouse_state.mouse_cursor_type = n.mouse_state.mouse_cursor_type →
      old.is_maximized = n.is_maximized → old.is_fullscreen = n.is_fullscreen →
      old.has_decorations ≠ n.has_decorations → old.is_visible = n.is_visible →
      old.size.min_dimensions = n.size.min_dimensions →
      old.size.max_dimensions = n.size.max_dimensions →
      update_from_user_window_state old n =
        ({ old with has_decorations := n.has_decorations },
         [PlatformCall.set_decorations n.has_decorations])) ∧
    (old.title = n.title →
      old.mouse_state.mouse_cursor_type = n.mouse_state.mouse_cursor_type →
      old.is_maximized = n.is_maximized → old.is_fullscreen = n.is_fullscreen →
      old.has_decorations = n.has_decorations → old.is_visible ≠ n.is_visible →
      old.size.min_dimensions = n.size.min_dimensions →
      old.size.max_dimensions = n.size.max_dimensions →
      update_from_user_window_state old n =
        ({ old with is_visible := n.is_visible },
         [if n.is_visible then PlatformCall.show_window else PlatformCall.hide_window])) ∧
    (old.title = n.title →
      old.mouse_state.mouse_cursor_type = n.mouse_state.mouse_cursor_type →
      old.is_maximized = n.is_maximized → old.is_fullscreen = n.is_fullscreen →
      old.has_decorations = n.has_decorations → old.is_visible = n.is_visible →
      old.size.min_dimensions ≠ n.size.min_dimensions →
      old.size.max_dimensions = n.size.max_dimensions →
      update_from_user_window_state old n =
        ({ old with size := { old.size with min_dimensions := n.size.min_dimensions } },
         [PlatformCall.set_min_dimensions n.size.min_dimensions])) ∧
    (old.title = n.title →
      old.mouse_state.mouse_cursor_type = n.mouse_state.mouse_cursor_type →
      old.is_maximized = n.is_maximized → old.is_fullscreen = n.is_fullscreen →
      old.has_decorations = n.has_decorations → old.is_visible = n.is_visible →
      old.size.min_dimensions = n.size.min_dimensions →
      old.size.max_dimensions ≠ n.size.max_dimensions →
      update_from_user_window_state old n =
        ({ old with size := { old.size with max_dimensions := n.size.max_dimensions } },
         [PlatformCall.set_max_dimensions n.size.max_dimensions])) := by
  refine ⟨?_, ?_, ?_, ?_, ?_, ?_, ?_, ?_, ?_⟩
  · rintro ⟨h1, h2, h3, h4, h5, h6, h7, h8⟩
    have hs : (update_from_user_window_state old n).1 = old := by
      rw [update_state_eq, ← h1, ← h2, ← h3, ← h4, ← h5, ← h6, ← h7, ← h8]
    have hc : (update_from_user_window_state old n).2 = [] := by
      simp [update_calls_eq, h1, h2, h3, h4, h5, h6, h7, h8]
    calc update_from_user_window_state old n
        = ((update_from_user_window_state old n).1, (update_from_user_window_state old n).2) := rfl
      _ = (old, []) := by rw [hs, hc]
  all_goals intro h1 h2 h3 h4 h5 h6 h7 h8
  · have hs := update_state_eq old n
    rw [← h2, ← h3, ← h4, ← h5, ← h6, ← h7, ← h8] at hs
    have hc : (update_from_user_window_state old n).2 = [PlatformCall.set_title n.title] := by
      simp [update_calls_eq, h1, h2, h3, h4, h5, h6, h7, h8]
    calc update_from_user_window_state old n
        = ((update_from_user_window_state old n).1, (update_from_user_window_state old n).2) := rfl
      _ = _ := by rw [hs, hc]
  · have hs := update_state_eq old n
    rw [← h1, ← h3, ← h4, ← h5, ← h6, ← h7, ← h8] at hs
    have hc : (update_from_user_window_state old n).2
        = [PlatformCall.set_cursor n.mouse_state.mouse_cursor_type] := by
      simp [update_calls_eq, h1, h2, h3, h4, h5, h6, h7, h8]
    calc update_from_user_window_state old n
        = ((update_from_user_window_state old n).1, (update_from_user_window_state old n).2) := rfl
      _ = _ := by rw [hs, hc]
  · have hs := update_state_eq old n
    rw [← h1, ← h2, ← h4, ← h5, ← h6, ← h7, ← h8] at hs
    have hc : (update_from_user_window_state old n).2
        = [PlatformCall.set_maximized n.is_maximized] := by
      simp [update_calls_eq, h1, h2, h3, h4, h5, h6, h7, h8]
    calc update_from_user_window_state old n
        = ((update_from_user_window_state old n).1, (update_from_user_window_state old n).2) := rfl
      _ = _ := by rw [hs, hc]
  · have hs := update_state_eq old n
    rw [← h1, ← h2, ← h3, ← h5, ← h6, ← h7, ← h8] at hs
    have hc : (update_from_user_window_state old n).2
        = [PlatformCall.set_fullscreen (if n.is_fullscreen then some () else none)] := by
      simp [update_calls_eq, h1, h2, h3, h4, h5, h6, h7, h8]
    calc update_from_user_window_state old n
        = ((update_from_user_window_state old n).1, (update_from_user_window_state old n).2) := rfl
      _ = _ := by rw [hs, hc]
  · have hs := update_state_eq old n
    rw [← h1, ← h2, ← h3, ← h4, ← h6, ← h7, ← h8] at hs
    have hc : (update_from_user_window_state old n).2
        = [PlatformCall.set_decorations n.has_decorations] := by
      simp [update_calls_eq, h1, h2, h3, h4, h5, h6, h7, h8]
    calc update_from_user_window_state old n
        = ((update_from_user_window_state old n).1, (update_from_user_window_state old n).2) := rfl
      _ = _ := by rw [hs, hc]
  · have hs := update_state_eq old n
    rw [← h1, ← h2, ← h3, ← h4, ← h5, ← h7, ← h8] at hs
    have hc : (update_from_user_window_state old n).2
        = [if n.is_visible then PlatformCall.show_window else PlatformCall.hide_window] := by
      simp [update_calls_eq, h1, h2, h3, h4, h5, h6, h7, h8]
    calc update_from_user_window_state old n
        = ((update_from_user_window_state old n).1, (update_from_user_window_state old n).2) := rfl
      _ = _ := by rw [hs, hc]
  · have hs := update_state_eq old n
    rw [← h1, ← h2, ← h3, ← h4, ← h5, ← h6, ← h8] at hs
    have hc : (update_from_user_window_state old n).2
        = [PlatformCall.set_min_dimensions n.size.min_dimensions] := by
      simp [update_calls_eq, h1, h2, h3, h4, h5, h6, h7, h8]
    calc update_from_user_window_state old n
        = ((update_from_user_window_state old n).1, (update_from_user_window_state old n).2) := rfl
      _ = _ := by rw [hs, hc]
  · have hs := update_state_eq old n
    rw [← h1, ← h2, ← h3, ← h4, ← h5, ← h6, ← h7] at hs
    have hc : (update_from_user_window_state old n).2
        = [PlatformCall.set_max_dimensions n.size.max_dimensions] := by
      simp [update_calls_eq, h1, h2, h3, h4, h5, h6, h7, h8]
    calc update_from_user_window_state old n
        = ((update_from_user_window_state old n).1, (update_from_user_window_state old n).2) := rfl
      _ = _ := by rw [hs, hc]

/-- A concrete window state used to instantiate the diff-engine claims. -/
def wOld : WindowState :=
  { title := "a"
    mouse_state := { mouse_cursor_type := 0, position := (0, 0), scroll_x := 0, scroll_y := 0 }
    is_maximized := false
    is_fullscreen := false
    has_decorations := true
    is_visible := true
    size := { dimensions := (800, 600), hidpi_factor := 1, winit_hidpi_factor := 1,
              min_dimensions := none, max_dimensions := none } }

/-- A desired state differing from `wOld` in the tracked field `title` and in
the untracked field `mouse_state.position` only. -/
def wNew : WindowState :=
  { wOld with
    title := "b"
    mouse_state := { wOld.mouse_state with position := (5, 5) } }

/-- Witness for C4: on `wOld` vs `wNew` (title differs) exactly one call is
emitted and only the title field of the stored state changes; on `wOld` vs
`wOld` no call is emitted. -/
theorem diff_engine_minimal_calls_witness :
    update_from_user_window_state wOld wNew
      = ({ wOld with title := "b" }, [PlatformCall.set_title "b"]) ∧
    update_from_user_window_state wOld wOld = (wOld, []) :=
  ⟨(diff_engine_minimal_calls wOld wNew).2.1 (by decide) rfl rfl rfl rfl rfl rfl rfl,
   (diff_engine_minimal_calls wOld wOld).1 ⟨rfl, rfl, rfl, rfl, rfl, rfl, rfl, rfl⟩⟩

/-- Claim C5: applying the diff engine twice in succession with the same
desired state and no intervening change to the stored state emits zero
platform calls on the second application. -/
theorem diff_engine_idempotent (old n : WindowState) :
    (update_from_user_window_state (update_from_user_window_state old n).1 n).2 = [] := by
  rw [update_calls_eq, update_state_eq]
  simp

/-- Embedding of `WindowCreateError` (window.rs lines 546-563). The payloads
of the foreign-library variants are opaque except for `CreateError`, whose
payload type `ε` (glutin `CreationError`) is the one the context-negotiation
claim is about. -/
inductive WindowCreateError (ε : Type) where
  | WebGlNotSupported
  | DisplayCreateError
  | Gl
  | Context
  | CreateError (e : ε)
  | SwapBuffers
  | Io
  | Renderer
  deriving DecidableEq, Repr

/-- Rust `Result::or_else`: keep a success, otherwise run the fallback on
the error. -/
def orElseResult (r : Except ε α) (f : ε → Except ε α) : Except ε α :=
  match r with
  | Except.ok v => Except.ok v
  | Except.error e => f e

/-- Rust `Result::map_err`. -/
def mapErrResult (r : Except ε α) (f : ε → δ) : Except δ α :=
  match r with
  | Except.ok v => Except.ok v
  | Except.error e => Except.error (f e)

/-- Embedding of `create_gl_window` (window.rs lines 1103-1117). The platform
call `CombinedContext::new(window, create_context_builder(vsync, srgb, shared),
events_loop)` is abstracted as `attempt vsync srgb`; the source chains the
four builder combinations with `or_else` and wraps the error of the final
attempt in `WindowCreateError::CreateError`. -/
def create_gl_window (attempt : Bool → Bool → Except ε γ) : Except (WindowCreateError ε) γ :=
  mapErrResult
    (orElseResult (orElseResult (orElseResult (attempt true true)
      (fun _ => attempt true false))
      (fun _ => attempt false true))
      (fun _ => attempt false false))
    WindowCreateError.CreateError

/-- The (vsync, srgb) combinations `create_gl_window` evaluates, in order:
each `or_else` closure runs only when the previous attempt returned an
error, so the trace is the chain of combinations up to and including the
first success. -/
def gl_window_attempts (attempt : Bool → Bool → Except ε γ) : List (Bool × Bool) :=
  match attempt true true with
  | Except.ok _ => [(true, true)]
  | Except.error _ =>
    match attempt true false with
    | Except.ok _ => [(true, true), (true, false)]
    | Except.error _ =>
      match attempt false true with
      | Except.ok _ => [(true, true), (true, false), (false, true)]
      | Except.error _ => [(true, true), (true, false), (false, true), (false, false)]

/-- Claim C3: `create_gl_window` attempts the builder combinations in exactly
the order (VSync on, SRGB on), (on, off), (off, on), (off, off), returns the
first success without evaluating later attempts, and when all four fail
returns `CreateError` carrying the error of the fourth attempt. -/
theorem create_gl_window_fallback_order (attempt : Bool → Bool → Except ε γ) :
    (∀ c, attempt true true = Except.ok c →
      create_gl_window attempt = Except.ok c ∧
      gl_window_attempts attempt = [(true, true)]) ∧
    (∀ e1 c, attempt true true = Except.error e1 → attempt true false = Except.ok c →
      create_gl_window attempt = Except.ok c ∧
      gl_window_attempts attempt = [(true, true), (true, false)]) ∧
    (∀ e1 e2 c, attempt true true = Except.error e1 → attempt true false = Except.error e2 →
      attempt false true = Except.ok c →
      create_gl_window attempt = Except.ok c ∧
      gl_window_attempts attempt = [(true, true), (true, false), (false, true)]) ∧
    (∀ e1 e2 e3 c, attempt true true = Except.error e1 → attempt true false = Except.error e2 →
      attempt false true = Except.error e3 → attempt false false = Except.ok c →
      create_gl_window attempt = Except.ok c ∧
      gl_window_attempts attempt = [(true, true), (true, false), (false, true), (false, false)]) ∧
    (∀ e1 e2 e3 e4, attempt true true = Except.error e1 → attempt true false = Except.error e2 →
      attempt false true = Except.error e3 → attempt false false = Except.error e4 →
      create_gl_window attempt = Except.error (WindowCreateError.CreateError e4) ∧
      gl_window_attempts attempt = [(true, true), (true, false), (false, true), (false, false)]) := by
  refine ⟨?_, ?_, ?_, ?_, ?_⟩
  · intro c h1
    unfold create_gl_window gl_window_attempts orElseResult mapErrResult
    rw [h1]
    exact ⟨rfl, rfl⟩
  · intro e1 c h1 h2
    unfold create_gl_window gl_window_attempts orElseResult mapErrResult
    rw [h1, h2]
    exact ⟨rfl, rfl⟩
  · intro e1 e2 c h1 h2 h3
    unfold create_gl_window gl_window_attempts orElseResult mapErrResult
    rw [h1, h2, h3]
    exact ⟨rfl, rfl⟩
  · intro e1 e2 e3 c h1 h2 h3 h4
    unfold create_gl_window gl_window_attempts orElseResult mapErrResult
    rw [h1, h2, h3, h4]
    exact ⟨rfl, rfl⟩
  · intro e1 e2 e3 e4 h1 h2 h3 h4
    unfold create_gl_window gl_window_attempts orElseResult mapErrResult
    rw [h1, h2, h3, h4]
    exact ⟨rfl, rfl⟩

/-- A fake context backend that rejects every combination except
(VSync off, SRGB off), mirroring the scenario in spec section 8. -/
def fakeGlBackend : Bool → Bool → Except Nat Nat :=
  fun vsync srgb => if vsync || srgb then Except.error 3 else Except.ok 7

/-- Witness for C3: against `fakeGlBackend` all four combinations are
attempted in order and the fourth succeeds and is used. -/
theorem create_gl_window_fallback_order_witness :
    create_gl_window fakeGlBackend = Except.ok 7 ∧
    gl_window_attempts fakeGlBackend
      = [(true, true), (true, false), (false, true), (false, false)] :=
  (create_gl_window_fallback_order fakeGlBackend).2.2.2.1 3 3 3 7 rfl rfl rfl rfl

/-- Embedding of `RendererKind` (webrender): `Native` is the hardware
renderer, `OSMesa` the software renderer; selected by `get_renderer_opts`
(window.rs lines 1180-1184). -/
inductive RendererKind where
  | Native
  | OSMesa
  deriving DecidableEq, Repr

/-- Embedding of `RendererType` (window.rs lines 477-482). -/
inductive RendererType where
  | Default
  | Hardware
  | Software
  deriving DecidableEq, Repr

/-- Outcome of running a Rust function that may panic: either the returned
value or a crash via `unwrap` on `Err`. -/
inductive RunResult (α : Type) where
  | ok (value : α)
  | panicked
  deriving DecidableEq, Repr

/-- Embedding of `create_renderer` (window.rs lines 1189-1223). The call
`Renderer::new(gl, notifier, opts, WR_SHADER_CACHE)` is abstracted as
`renderer_new kind` (`some` = `Ok`, `none` = `Err`), with `kind` the
`renderer_kind` of the options passed. `Hardware` and `Software` force one
backend and `unwrap()` its result (panicking on failure); `Default` tries
`Native` and falls back to `OSMesa`, whose failure is again `unwrap`ped.
On success the source always returns `Ok((renderer, api))`, modelled as
`RunResult.ok (Except.ok r)`: no code path returns an `Err` for a renderer
construction failure. -/
def create_renderer (renderer_new : RendererKind → Option γ) (renderer_type : RendererType) :
    RunResult (Except (WindowCreateError ε) γ) :=
  match renderer_type with
  | RendererType.Hardware =>
    match renderer_new RendererKind.Native with
    | some r => RunResult.ok (Except.ok r)
    | none => RunResult.panicked
  | RendererType.Software =>
    match renderer_new RendererKind.OSMesa with
    | some r => RunResult.ok (Except.ok r)
    | none => RunResult.panicked
  | RendererType.Default =>
    match renderer_new RendererKind.Native with
    | some r => RunResult.ok (Except.ok r)
    | none =>
      match renderer_new RendererKind.OSMesa with
      | some r => RunResult.ok (Except.ok r)
      | none => RunResult.panicked

/-- The renderer backends `create_renderer` attempts, in order: forced modes
attempt exactly the forced backend; `Default` attempts `Native` and, only on
its failure, `OSMesa`. -/
def create_renderer_attempts (renderer_new : RendererKind → Option γ)
    (renderer_type : RendererType) : List RendererKind :=
  match renderer_type with
  | RendererType.Hardware => [RendererKind.Native]
  | RendererType.Software => [RendererKind.OSMesa]
  | RendererType.Default =>
    match renderer_new RendererKind.Native with
    | some _ => [RendererKind.Native]
    | none => [RendererKind.Native, RendererKind.OSMesa]

/-- Claim C9: with `RendererType::Default`, `create_renderer` attempts the
hardware (`Native`) renderer first and falls back to the software (`OSMesa`)
renderer on failure; with a forced `Hardware` or `Software` type it attempts
only the forced backend and panics on its failure instead of falling back or
returning an error. -/
theorem create_renderer_fallback_policy (renderer_new : RendererKind → Option γ) :
    (∀ r, renderer_new RendererKind.Native = some r →
      create_renderer (ε := ε) renderer_new RendererType.Default = RunResult.ok (Except.ok r) ∧
      create_renderer_attempts renderer_new RendererType.Default = [RendererKind.Native]) ∧
    (∀ r, renderer_new RendererKind.Native = none →
      renderer_new RendererKind.OSMesa = some r →
      create_renderer (ε := ε) renderer_new RendererType.Default = RunResult.ok (Except.ok r) ∧
      create_renderer_attempts renderer_new RendererType.Default
        = [RendererKind.Native, RendererKind.OSMesa]) ∧
    (renderer_new RendererKind.Native = none → renderer_new RendererKind.OSMesa = none →
      create_renderer (ε := ε) renderer_new RendererType.Default = RunResult.panicked) ∧
    (∀ r, renderer_new RendererKind.Native = some r →
      create_renderer (ε := ε) renderer_new RendererType.Hardware = RunResult.ok (Except.ok r)) ∧
    (renderer_new RendererKind.Native = none →
      create_renderer (ε := ε) renderer_new RendererType.Hardware = RunResult.panicked) ∧
    (∀ r, renderer_new RendererKind.OSMesa = some r →
      create_renderer (ε := ε) renderer_new RendererType.Software = RunResult.ok (Except.ok r)) ∧
    (renderer_new RendererKind.OSMesa = none →
      create_renderer (ε := ε) renderer_new RendererType.Software = RunResult.panicked) ∧
    (create_renderer_attempts renderer_new RendererType.Hardware = [RendererKind.Native] ∧
     create_renderer_attempts renderer_new RendererType.Software = [RendererKind.OSMesa]) := by
  refine ⟨?_, ?_, ?_, ?_, ?_, ?_, ?_, rfl, rfl⟩
  · intro r h
    unfold create_renderer create_renderer_attempts
    rw [h]
    exact ⟨rfl, rfl⟩
  · intro r h1 h2
    unfold create_renderer create_renderer_attempts
    rw [h1, h2]
    exact ⟨rfl, rfl⟩
  · intro h1 h2
    unfold create_renderer
    rw [h1, h2]
  · intro r h
    unfold create_renderer
    rw [h]
  · intro h
    unfold create_renderer
    rw [h]
  · intro r h
    unfold create_renderer
    rw [h]
  · intro h
    unfold create_renderer
    rw [h]

/-- A fake renderer backend on which hardware construction fails and
software construction succeeds. -/
def fakeRendererBackend : RendererKind → Option Nat :=
  fun kind => match kind with
  | RendererKind.Native => none
  | RendererKind.OSMesa => some 11

/-- Witness for C9: on `fakeRendererBackend`, `Default` falls back to the
software renderer after attempting the hardware one, while forced `Hardware`
panics. -/
theorem create_renderer_fallback_policy_witness :
    (create_renderer (ε := Nat) fakeRendererBackend RendererType.Default
        = RunResult.ok (Except.ok 11) ∧
      create_renderer_attempts fakeRendererBackend RendererType.Default
        = [RendererKind.Native, RendererKind.OSMesa]) ∧
    create_renderer (ε := Nat) fakeRendererBackend RendererType.Hardware = RunResult.panicked :=
  ⟨(create_renderer_fallback_policy fakeRendererBackend).2.1 11 rfl rfl,
   (create_renderer_fallback_policy fakeRendererBackend).2.2.2.2.1 rfl⟩

end Azul
